import Mathlib

/-!
# Verification of the print-server retry/connection-lifecycle core

Shallow embedding of the core of the `xi-print-server` repository:

* `src/print-handler.js` — transient-error classification (`isTransientError`),
  exponential-backoff retry (`retryWithBackoff`), and the print executor
  (`printReceiptCore`, `printReceipt`);
* `src/printer.js` — the connection manager (`initPrinter`, `getPrinter`,
  `resetPrinter`) with its module-level mutable state
  (`printerAdapter`, `isInitialized`, `initializationPromise`);
* `src/constants.js` — the timing/retry constants.

JavaScript errors are embedded as their message strings (every classification
and wrapping in the source only reads `error.message`).  Promises settled by
the fully synchronous initialization body are embedded as their settled value.
The event-loop serialization of JavaScript lets us model "concurrent" calls to
the (await-free, hence atomic) `initPrinter` as consecutive calls.
-/

/-! ## Constants (src/constants.js) -/

/-- `RETRY_BASE_DELAY = 1000` (ms), base delay for exponential backoff. -/
def RETRY_BASE_DELAY : Nat := 1000

/-- `MAX_RETRY_ATTEMPTS = 3`, maximum number of retry attempts. -/
def MAX_RETRY_ATTEMPTS : Nat := 3

/-- `RECEIPT_PRINT_TIMEOUT = 15000` (ms), deadline for one receipt print. -/
def RECEIPT_PRINT_TIMEOUT : Nat := 15000

/-- `POST_PRINT_DELAY = 1000` (ms), settle delay after printing. -/
def POST_PRINT_DELAY : Nat := 1000

/-! ## JavaScript string primitives

`String.prototype.includes`, `String.prototype.startsWith` and
`String.prototype.toLowerCase` as used by the handler (ASCII content only). -/

/-- `hay` starts with `needle`, on character lists. -/
def startsWithL : List Char → List Char → Bool
  | _, [] => true
  | [], _ :: _ => false
  | c :: cs, d :: ds => c == d && startsWithL cs ds

/-- `needle` occurs as a contiguous substring of `hay`, on character lists
(JavaScript `hay.includes(needle)`). -/
def includesL : List Char → List Char → Bool
  | [], needle => needle.isEmpty
  | c :: cs, needle => startsWithL (c :: cs) needle || includesL cs needle

/-- JavaScript `hay.includes(needle)`. -/
def jsIncludes (hay needle : String) : Bool :=
  includesL hay.data needle.data

/-- JavaScript `s.toLowerCase()` (per-character lowering; the messages involved
are ASCII). -/
def jsToLower (s : String) : String :=
  String.mk (s.data.map Char.toLower)

/-! ## Transient-error classification (src/print-handler.js, `isTransientError`) -/

/-- The `transientPatterns` list of `isTransientError`. -/
def transientPatterns : List String :=
  ["timeout", "busy", "eagain", "ebusy", "failed to open", "connection", "i/o error"]

/-- `isTransientError(error)`: the lowercased message contains one of the
transient patterns.  The error is embedded as its message string. -/
def isTransientError (message : String) : Bool :=
  let m := jsToLower message
  transientPatterns.any (fun pattern => jsIncludes m pattern)

example : isTransientError "Print operation timeout" = true := by decide
example : isTransientError "No USB printer found" = false := by decide
example : isTransientError "openAdapter is not a function" = false := by decide
example : isTransientError "Failed to open printer: x" = true := by decide

/-! ## Configuration (src/config.js, the parts the connection manager reads) -/

/-- `config.printer.usb`: `USB_VENDOR_ID`/`USB_PRODUCT_ID` environment values,
`none` embeds JavaScript `null`. -/
structure USBConfig where
  vendorId : Option String
  productId : Option String
deriving DecidableEq, Repr

/-- `config.printer`: the printer type string (`"usb"`, `"network"`, …) and the
USB identifier pair. -/
structure PrinterConfig where
  type : String
  usb : USBConfig
deriving DecidableEq, Repr

/-- JavaScript truthiness of a string-or-null configuration value:
`null` and the empty string are falsy. -/
def jsTruthyStr : Option String → Bool
  | none => false
  | some s => s ≠ ""

/-! ## Device driver handles (vendored `morden-node-escpos`, opaque)

`new USBAdapter(vendorId, productId)` or `new USBAdapter()`.  The constructor
arguments are kept as the raw configured hex strings; their numeric parsing
(`parseInt(·, 16)`) happens inside the opaque driver boundary and no claim
depends on the parsed values. -/

/-- A constructed `USBAdapter` device handle. -/
inductive USBAdapter where
  | explicitIds (vendorIdHex productIdHex : String)
  | auto
deriving DecidableEq, Repr

/-! ## Connection-manager state (src/printer.js module-level variables)

```js
let printerAdapter = null;
let isInitialized = false;
let initializationPromise = null;
```

The initialization body contains no `await`, so it runs synchronously and its
promise is settled by the time any other code observes it; we therefore embed
`initializationPromise` as `Option` of its settled value. -/

deriving instance DecidableEq for Except

/-- The three module-level variables of `src/printer.js`. -/
structure PrinterState where
  printerAdapter : Option USBAdapter
  isInitialized : Bool
  initializationPromise : Option (Except String USBAdapter)
deriving DecidableEq, Repr

/-- The module-load state: all three variables cleared. -/
def cleanState : PrinterState :=
  { printerAdapter := none, isInitialized := false, initializationPromise := none }

/-- The spec's tri-state `InitializationState` abstraction of `PrinterState`,
read off the same guards `initPrinter` itself dispatches on. -/
inductive InitializationState where
  | uninitialized
  | initializing
  | ready
deriving DecidableEq, Repr

/-- Map the concrete module state to the spec's tri-state. -/
def stateOf (s : PrinterState) : InitializationState :=
  if s.isInitialized && s.printerAdapter.isSome then .ready
  else if s.initializationPromise.isSome then .initializing
  else .uninitialized

/-- `getPrinter()` (src/printer.js line 194): returns `printerAdapter`. -/
def getPrinter (s : PrinterState) : Option USBAdapter :=
  s.printerAdapter

/-! ## `resetPrinter()` (src/printer.js lines 201–216) -/

/-- Result of `resetPrinter`: the new module state, plus the close error (if
the discarded handle's `close` threw) that was caught and ignored. -/
structure ResetResult where
  state : PrinterState
  suppressedCloseError : Option String
deriving DecidableEq, Repr

/-- `resetPrinter()`: sets `isInitialized = false`; if a handle exists,
attempts `printerAdapter.close(...)` inside `try/catch`, ignoring any error
(`closeErr` is the error that call throws, `none` if it returns normally);
then clears `printerAdapter` and `initializationPromise`.  It never throws. -/
def resetPrinter (closeErr : Option String) (s : PrinterState) : ResetResult :=
  let s1 := { s with isInitialized := false }
  match s1.printerAdapter with
  | some _ =>
      { state := { s1 with printerAdapter := none, initializationPromise := none },
        suppressedCloseError := closeErr }
  | none =>
      { state := { s1 with printerAdapter := none, initializationPromise := none },
        suppressedCloseError := none }

/-- `resetPrinter` leaves the module-load state, whatever the prior state and
whatever the discarded handle's `close` did. -/
theorem resetPrinter_state (ce : Option String) (s : PrinterState) :
    (resetPrinter ce s).state = cleanState := by
  cases s with
  | mk a i p => cases a <;> rfl

/-! ## `initPrinter()` (src/printer.js lines 134–189)

The body of the `async` IIFE assigned to `initializationPromise` contains no
`await`: it runs to completion synchronously (its `finally` clause
`initializationPromise = null` included) *before* the enclosing assignment
`initializationPromise = (async () => …)()` stores the already-settled
promise.  The net effect, embedded below, is that after the body completes,
`initializationPromise` holds the settled outcome — the `finally` clause's
clearing is overwritten. -/

/-- Result of one `initPrinter()` call: the settled outcome, the new module
state, and how many times `USBAdapter.findPrinter()` was invoked during the
call. -/
structure InitResult where
  result : Except String USBAdapter
  state : PrinterState
  discoveries : Nat
deriving DecidableEq, Repr

/-- The error message thrown when discovery yields no candidates
(src/printer.js line 153). -/
def noDeviceMsg : String := "No USB printer found"

/-- The error message for the unsupported network printer type
(src/printer.js line 172). -/
def networkMsg : String :=
  "Network printer not yet supported with morden-node-escpos. Please use USB printer or contribute network adapter support."

/-- Module state after the initialization body fails with error `e`:
the `catch` clause sets `isInitialized = false` and `printerAdapter = null`;
the settled (rejected) promise overwrites the `finally` clause's clearing. -/
def initFailState (e : String) : PrinterState :=
  { printerAdapter := none, isInitialized := false,
    initializationPromise := some (.error e) }

/-- The initialization body (the `async` IIFE, run synchronously):
`findPrinter` is the value returned by `USBAdapter.findPrinter()`
(`none` embeds a null/undefined return).  Overwrites all three module
variables; reads none of them. -/
def initPrinterBody (cfg : PrinterConfig) (findPrinter : Option (List Nat)) :
    InitResult :=
  if cfg.type = "usb" then
    match findPrinter with
    | none => { result := .error noDeviceMsg, state := initFailState noDeviceMsg, discoveries := 1 }
    | some [] => { result := .error noDeviceMsg, state := initFailState noDeviceMsg, discoveries := 1 }
    | some (_ :: _) =>
        let adapter : USBAdapter :=
          if jsTruthyStr cfg.usb.vendorId && jsTruthyStr cfg.usb.productId then
            .explicitIds (cfg.usb.vendorId.getD "") (cfg.usb.productId.getD "")
          else
            .auto
        { result := .ok adapter,
          state := { printerAdapter := some adapter, isInitialized := true,
                     initializationPromise := some (.ok adapter) },
          discoveries := 1 }
  else if cfg.type = "network" then
    { result := .error networkMsg, state := initFailState networkMsg, discoveries := 0 }
  else
    { result := .error ("Unsupported printer type: " ++ cfg.type),
      state := initFailState ("Unsupported printer type: " ++ cfg.type), discoveries := 0 }

/-- `initPrinter()`: fast path when `isInitialized && printerAdapter`; second
path returns the stored `initializationPromise` when one exists; otherwise
runs the initialization body. -/
def initPrinter (cfg : PrinterConfig) (findPrinter : Option (List Nat))
    (s : PrinterState) : InitResult :=
  match s.isInitialized, s.printerAdapter with
  | true, some a => { result := .ok a, state := s, discoveries := 0 }
  | _, _ =>
    match s.initializationPromise with
    | some r => { result := r, state := s, discoveries := 0 }
    | none => initPrinterBody cfg findPrinter

/-- A USB configuration with no explicit vendor/product identifiers. -/
def usbAutoCfg : PrinterConfig :=
  { type := "usb", usb := { vendorId := none, productId := none } }

example :
    initPrinter usbAutoCfg (some [7]) cleanState =
      { result := .ok .auto,
        state := { printerAdapter := some .auto, isInitialized := true,
                   initializationPromise := some (.ok .auto) },
        discoveries := 1 } := by decide

example :
    (initPrinter usbAutoCfg (some []) cleanState).result = .error "No USB printer found" := by
  decide

example :
    (initPrinter usbAutoCfg (some [])
      (initPrinter usbAutoCfg (some []) cleanState).state).discoveries = 0 := by decide

/-! ## Retry policy (src/print-handler.js, `retryWithBackoff`, lines 45–86)

The retry loop mutates the connection-manager state (through `resetPrinter`
and through the operation itself), so the embedded operation is
state-passing: `op attempt s` is the settled outcome and post-state of
`operation()` on the given attempt.  The observable side effects the claims
talk about — connection-manager resets, backoff sleeps, operation
invocations — are recorded in an event trace. -/

/-- Observable events of one `retryWithBackoff` run, in order. -/
inductive RetryEvent where
  | reset
  | sleep (ms : Nat)
  | invoke (attempt : Nat)
deriving DecidableEq, Repr

/-- Settled outcome and event trace of a `retryWithBackoff` run. -/
structure RetryResult (α : Type) where
  result : Except String α
  trace : List RetryEvent

/-- Number of operation invocations recorded in a trace. -/
def invokeCount (tr : List RetryEvent) : Nat :=
  tr.countP (fun ev => match ev with | .invoke _ => true | _ => false)

/-- The `for (let attempt = 0; attempt <= maxRetries; attempt++)` loop body.
`fuel` is `maxRetries + 1 - attempt`, the number of remaining iterations
(the `fuel = 0` base case is the loop running off its bound, which the
source cannot reach: the `attempt === maxRetries` branch throws first).
For `attempt > 0` the iteration first calls `resetPrinter()` and then awaits
`sleep(Math.pow(2, attempt - 1) * RETRY_BASE_DELAY)`. -/
def retryLoop (op : Nat → PrinterState → Except String α × PrinterState)
    (closeErr : Nat → Option String) (maxRetries : Nat) :
    Nat → Nat → PrinterState → RetryResult α × PrinterState
  | 0, _, s => ({ result := .error "", trace := [] }, s)
  | fuel + 1, attempt, s =>
    let s1 := if attempt = 0 then s else (resetPrinter (closeErr attempt) s).state
    let pre : List RetryEvent :=
      if attempt = 0 then []
      else [RetryEvent.reset, RetryEvent.sleep (2 ^ (attempt - 1) * RETRY_BASE_DELAY)]
    let s2 := (op attempt s1).2
    match (op attempt s1).1 with
    | .ok v => ({ result := .ok v, trace := pre ++ [.invoke attempt] }, s2)
    | .error e =>
      if !(isTransientError e) then
        ({ result := .error e, trace := pre ++ [.invoke attempt] }, s2)
      else if attempt == maxRetries then
        ({ result := .error ("Print operation failed after " ++ toString maxRetries
              ++ " retries: " ++ e),
           trace := pre ++ [.invoke attempt] }, s2)
      else
        let next := retryLoop op closeErr maxRetries fuel (attempt + 1) s2
        ({ result := next.1.result, trace := pre ++ [.invoke attempt] ++ next.1.trace },
         next.2)

/-- `retryWithBackoff(operation, maxRetries, operationName)`: run the loop
from `attempt = 0` with its full iteration budget. -/
def retryWithBackoff (op : Nat → PrinterState → Except String α × PrinterState)
    (closeErr : Nat → Option String) (maxRetries : Nat) (s : PrinterState) :
    RetryResult α × PrinterState :=
  retryLoop op closeErr maxRetries (maxRetries + 1) 0 s

/-! ## Print executor (src/print-handler.js, `printReceiptCore`, lines 91–173)

External outcomes of one attempt are parameters:

* `openAdapterBinding` — the value bound to `openAdapter` by the import on
  line 2.  In the repository as linked it is `none` (`undefined`): `printer.js`
  does not define or export `openAdapter`, so `await openAdapter(adapter)`
  throws `TypeError: openAdapter is not a function`.  A `some f` binding
  models a hypothetical resolved import, `f adapter` its settled outcome.
* `emit` — outcome of the `new Printer … forEach … feed(2).cut().close()`
  block (an exception there is `EmissionFailed`).
* `timeoutFires` — whether the `RECEIPT_PRINT_TIMEOUT` deadline elapses
  before `printOperation()` settles, i.e. whether the timeout promise wins
  `Promise.race`.  When `printOperation` rejects synchronously (as with the
  `TypeError` above) this is `false`.
* `closeErr` — error thrown by the discarded handle's `close` during any
  `resetPrinter()` call in this attempt (caught and ignored there).

`formatReceipt` is the excluded pure formatter; its output only feeds the
emission block, which `emit` abstracts, so `orderData` does not appear. -/

/-- Settled outcome of one `printReceiptCore` attempt and the module state it
leaves behind. -/
structure CoreResult where
  result : Except String String
  state : PrinterState
deriving Repr

/-- The success value `{ success: true, message: 'Receipt printed successfully' }`
is embedded as its message. -/
def successMsg : String := "Receipt printed successfully"

/-- `printReceiptCore(orderData)`.  Control flow of the source: the outer
`try` awaits `initPrinter()`; the timeout promise's callback calls
`resetPrinter()` and rejects with `'Print operation timeout'`;
`printOperation` awaits `openAdapter(adapter)`, runs the emission block,
sleeps `POST_PRINT_DELAY`, calls `resetPrinter()` and resolves — its `catch`
calls `resetPrinter()` and rethrows; the outer `catch` calls `resetPrinter()`
and rethrows. -/
def printReceiptCore (cfg : PrinterConfig) (findPrinter : Option (List Nat))
    (openAdapterBinding : Option (USBAdapter → Except String Unit))
    (emit : Except String Unit) (timeoutFires : Bool) (closeErr : Option String)
    (s : PrinterState) : CoreResult :=
  let ir := initPrinter cfg findPrinter s
  match ir.result with
  | .error e => { result := .error e, state := (resetPrinter closeErr ir.state).state }
  | .ok adapter =>
    if timeoutFires then
      { result := .error "Print operation timeout",
        state := (resetPrinter closeErr (resetPrinter closeErr ir.state).state).state }
    else
      let opResult : Except String String :=
        match openAdapterBinding with
        | none => .error "openAdapter is not a function"
        | some openAdapter =>
          match openAdapter adapter with
          | .error e => .error e
          | .ok _ =>
            match emit with
            | .error e => .error e
            | .ok _ => .ok successMsg
      match opResult with
      | .ok msg => { result := .ok msg, state := (resetPrinter closeErr ir.state).state }
      | .error e =>
          { result := .error e,
            state := (resetPrinter closeErr (resetPrinter closeErr ir.state).state).state }

/-- The `openAdapter` binding of the repository as linked: `printer.js`
exports `{ initPrinter, getPrinter, closePrinter, testPrinter, resetPrinter }`
(lines 316–322) and never defines `openAdapter`, so the destructured import on
print-handler.js line 2 is `undefined`. -/
def openAdapterLinked : Option (USBAdapter → Except String Unit) := none

/-- The names exported by `src/printer.js` (lines 316–322). -/
def printerExports : List String :=
  ["initPrinter", "getPrinter", "closePrinter", "testPrinter", "resetPrinter"]

/-- Per-attempt external environment of one `printReceiptCore` invocation. -/
structure AttemptEnv where
  findPrinter : Option (List Nat)
  emit : Except String Unit
  timeoutFires : Bool
  closeErr : Option String

/-- `printReceipt(orderData)` (src/print-handler.js lines 179–185):
`retryWithBackoff(() => printReceiptCore(orderData), MAX_RETRY_ATTEMPTS,
'printReceipt')`, with the repository's actual `openAdapter` binding.
`env n` is the external environment seen by the `n`-th invocation. -/
def printReceipt (cfg : PrinterConfig) (env : Nat → AttemptEnv)
    (s0 : PrinterState) : RetryResult String × PrinterState :=
  retryWithBackoff
    (fun n s =>
      let r := printReceiptCore cfg (env n).findPrinter openAdapterLinked
        (env n).emit (env n).timeoutFires (env n).closeErr s
      (r.result, r.state))
    (fun n => (env n).closeErr) MAX_RETRY_ATTEMPTS s0

/-! ## Consecutive `initPrinter` calls (for single-flight and Scenario A)

JavaScript's event loop serializes the N concurrent callers, and
`initPrinter` suspends nowhere, so N concurrent calls are N consecutive
calls against the shared module state. -/

/-- `initCalls cfg findPrinter n s`: run `initPrinter` `n` times consecutively
from state `s`; collect the per-call results, the final state, and the total
number of `USBAdapter.findPrinter()` invocations. -/
def initCalls (cfg : PrinterConfig) (findPrinter : Option (List Nat)) :
    Nat → PrinterState → List (Except String USBAdapter) × PrinterState × Nat
  | 0, s => ([], s, 0)
  | n + 1, s =>
    let r := initPrinter cfg findPrinter s
    let (rs, s2, d) := initCalls cfg findPrinter n r.state
    (r.result :: rs, s2, r.discoveries + d)

/-! ## Retry-policy lemmas -/

/-- A first-attempt failure classified permanent is propagated unchanged after
exactly one invocation, with no reset and no backoff sleep, for any retry
budget. -/
theorem retry_permanent_once
    (op : Nat → PrinterState → Except String α × PrinterState)
    (ce : Nat → Option String) (mr : Nat) (s s2 : PrinterState) (e : String)
    (hop : op 0 s = (.error e, s2)) (ht : isTransientError e = false) :
    retryWithBackoff op ce mr s =
      ({ result := .error e, trace := [.invoke 0] }, s2) := by
  simp [retryWithBackoff, retryLoop, hop, ht]

/-- If every invocation of the operation fails, the loop never produces a
success, from any attempt index and with any fuel. -/
theorem retryLoop_all_error
    (op : Nat → PrinterState → Except String α × PrinterState)
    (ce : Nat → Option String) (mr : Nat)
    (h : ∀ n t, ((op n t).1).isOk = false) :
    ∀ fuel attempt s, (((retryLoop op ce mr fuel attempt s).1).result).isOk = false := by
  intro fuel
  induction fuel with
  | zero => intro attempt s; rfl
  | succ m ih =>
    intro attempt s
    simp only [retryLoop]
    cases hr : (op attempt (if attempt = 0 then s else (resetPrinter (ce attempt) s).state)).1 with
    | ok v =>
      have hfalse := h attempt (if attempt = 0 then s else (resetPrinter (ce attempt) s).state)
      rw [hr] at hfalse
      exact absurd hfalse (by simp [Except.isOk, Except.toBool])
    | error e =>
      by_cases htr : isTransientError e
      · simp only [htr, Bool.not_true, Bool.false_eq_true, if_false]
        by_cases hm : attempt == mr
        · simp [hm, Except.isOk, Except.toBool]
        · simp [hm, ih]
      · simp [htr, Except.isOk, Except.toBool]

/-- Full behavior of `retryWithBackoff` when every invocation fails with a
transient-classified error, at the repository's retry budget
`maxRetries = 3`: the operation runs 4 times, each retry is preceded by a
connection reset and an exponentially growing sleep, and the final error wraps
the retry count and the last cause. -/
theorem retry_transient_exhaust
    (op : Nat → PrinterState → Except String α × PrinterState)
    (ce : Nat → Option String) (e : Nat → String)
    (σ : Nat → PrinterState → PrinterState) (s : PrinterState)
    (hop : ∀ n t, op n t = (.error (e n), σ n t))
    (ht : ∀ n, isTransientError (e n) = true) :
    (retryWithBackoff op ce 3 s).1.result =
      .error ("Print operation failed after 3 retries: " ++ e 3) ∧
    (retryWithBackoff op ce 3 s).1.trace =
      [.invoke 0,
       .reset, .sleep 1000, .invoke 1,
       .reset, .sleep 2000, .invoke 2,
       .reset, .sleep 4000, .invoke 3] := by
  have hs : "Print operation failed after " ++ toString (3 : Nat) ++ " retries: " =
      "Print operation failed after 3 retries: " := by decide
  simp [retryWithBackoff, retryLoop, hop, ht, RETRY_BASE_DELAY, hs]

/-! ## Claims about the retry policy -/

/-- C3: for every operation that on every invocation fails with an error
classified as transient, `runWithRetry(op, 3, label)` invokes the operation
exactly 4 times (1 initial attempt + 3 retries) and then throws a wrapped
error whose message reports the retry count (3) and the last underlying
error's message. -/
theorem retry_count_bound
    (op : Nat → PrinterState → Except String α × PrinterState)
    (ce : Nat → Option String) (e : Nat → String)
    (σ : Nat → PrinterState → PrinterState) (s : PrinterState)
    (hop : ∀ n t, op n t = (.error (e n), σ n t))
    (ht : ∀ n, isTransientError (e n) = true) :
    invokeCount (retryWithBackoff op ce 3 s).1.trace = 4 ∧
    (retryWithBackoff op ce 3 s).1.result =
      .error ("Print operation failed after 3 retries: " ++ e 3) := by
  have h := retry_transient_exhaust op ce e σ s hop ht
  refine ⟨?_, h.1⟩
  rw [h.2]
  rfl

/-- C3 witness: an operation that always fails with `'Print operation timeout'`
(a transient-classified message) is invoked 4 times and the final error wraps
the count and the cause. -/
theorem retry_count_bound_witness :
    invokeCount (retryWithBackoff
        (fun _ t => ((.error "Print operation timeout" : Except String String), t))
        (fun _ => none) 3 cleanState).1.trace = 4 ∧
    (retryWithBackoff
        (fun _ t => ((.error "Print operation timeout" : Except String String), t))
        (fun _ => none) 3 cleanState).1.result =
      .error "Print operation failed after 3 retries: Print operation timeout" :=
  retry_count_bound (fun _ t => (.error "Print operation timeout", t)) (fun _ => none)
    (fun _ => "Print operation timeout") (fun _ t => t) cleanState
    (fun _ _ => rfl)
    (fun _ => show isTransientError "Print operation timeout" = true by decide)

/-- C4: for every operation whose first failure carries an error not
classified as transient, `runWithRetry` invokes the operation exactly once
(the trace holds a single `invoke` and in particular no `reset` and no
`sleep`) and propagates that error unchanged, for any retry budget. -/
theorem permanent_short_circuit
    (op : Nat → PrinterState → Except String α × PrinterState)
    (ce : Nat → Option String) (mr : Nat) (s s2 : PrinterState) (e : String)
    (hop : op 0 s = (.error e, s2)) (ht : isTransientError e = false) :
    retryWithBackoff op ce mr s =
      ({ result := .error e, trace := [.invoke 0] }, s2) :=
  retry_permanent_once op ce mr s s2 e hop ht

/-- C4 witness: a first-attempt failure with the non-transient message
`'Unsupported printer type: serial'` short-circuits after one invocation. -/
theorem permanent_short_circuit_witness :
    retryWithBackoff (fun _ t => ((.error "Unsupported printer type: serial" : Except String String), t))
        (fun _ => none) 3 cleanState =
      ({ result := .error "Unsupported printer type: serial", trace := [.invoke 0] }, cleanState) :=
  permanent_short_circuit (fun _ t => (.error "Unsupported printer type: serial", t))
    (fun _ => none) 3 cleanState cleanState "Unsupported printer type: serial" rfl (by decide)

/-- C5: for the repository's retry budget (`MAX_RETRY_ATTEMPTS = 3`), before
every retry attempt `n ≥ 1` the connection manager is reset and then the loop
sleeps `2^(n-1) * RETRY_BASE_DELAY`: with the base delay of 1000 ms the delays
before attempts 2, 3 and 4 are 1000 ms, 2000 ms and 4000 ms, and no reset or
sleep precedes the first attempt. -/
theorem backoff_schedule
    (op : Nat → PrinterState → Except String α × PrinterState)
    (ce : Nat → Option String) (e : Nat → String)
    (σ : Nat → PrinterState → PrinterState) (s : PrinterState)
    (hop : ∀ n t, op n t = (.error (e n), σ n t))
    (ht : ∀ n, isTransientError (e n) = true) :
    (retryWithBackoff op ce MAX_RETRY_ATTEMPTS s).1.trace =
      [.invoke 0,
       .reset, .sleep 1000, .invoke 1,
       .reset, .sleep 2000, .invoke 2,
       .reset, .sleep 4000, .invoke 3] ∧
    1000 = RETRY_BASE_DELAY * 2 ^ (1 - 1) ∧
    2000 = RETRY_BASE_DELAY * 2 ^ (2 - 1) ∧
    4000 = RETRY_BASE_DELAY * 2 ^ (3 - 1) :=
  ⟨(retry_transient_exhaust op ce e σ s hop ht).2, by decide, by decide, by decide⟩

/-- C5 witness: the schedule at a concrete always-transiently-failing
operation. -/
theorem backoff_schedule_witness :
    (retryWithBackoff (fun _ t => ((.error "device busy" : Except String String), t))
        (fun _ => none) MAX_RETRY_ATTEMPTS cleanState).1.trace =
      [.invoke 0,
       .reset, .sleep 1000, .invoke 1,
       .reset, .sleep 2000, .invoke 2,
       .reset, .sleep 4000, .invoke 3] ∧
    1000 = RETRY_BASE_DELAY * 2 ^ (1 - 1) :=
  ⟨(backoff_schedule (fun _ t => ((.error "device busy" : Except String String), t)) (fun _ => none)
      (fun _ => "device busy") (fun _ t => t) cleanState
      (fun _ _ => rfl)
      (fun _ => show isTransientError "device busy" = true by decide)).1,
   by decide⟩

/-- C2 counterexample: the discovery-yields-nothing error produced by
`initPrinter` carries the message `'No USB printer found'`, and
`isTransientError` classifies it as NOT transient — no pattern of
`transientPatterns` occurs in it. -/
theorem noDeviceFound_not_transient :
    (initPrinter usbAutoCfg (some []) cleanState).result = .error noDeviceMsg ∧
    isTransientError noDeviceMsg = false := by
  constructor
  · rfl
  · decide

/-- C2 (amended): the `NoDeviceFound` error (`'No USB printer found'`) is
classified as permanent by the retry policy's message matching, so
`runWithRetry` invokes the failing operation exactly once and propagates the
error unchanged, with no reset and no backoff. -/
theorem noDeviceFound_permanent
    (op : Nat → PrinterState → Except String α × PrinterState)
    (ce : Nat → Option String) (mr : Nat) (s s2 : PrinterState)
    (hop : op 0 s = (.error noDeviceMsg, s2)) :
    retryWithBackoff op ce mr s =
      ({ result := .error noDeviceMsg, trace := [.invoke 0] }, s2) :=
  retry_permanent_once op ce mr s s2 noDeviceMsg hop (by decide)

/-- C2 (amended) witness: one invocation at a concrete operation failing with
`'No USB printer found'`. -/
theorem noDeviceFound_permanent_witness :
    retryWithBackoff (fun _ t => ((.error noDeviceMsg : Except String String), t))
        (fun _ => none) 3 cleanState =
      ({ result := .error noDeviceMsg, trace := [.invoke 0] }, cleanState) :=
  noDeviceFound_permanent (fun _ t => (.error noDeviceMsg, t)) (fun _ => none) 3
    cleanState cleanState rfl

/-! ## Connection-manager lemmas -/

/-- The state left by the initialization body is absorbing: a further
`initPrinter` call (with any discovery outcome) returns the same settled
result, leaves the state unchanged, and performs no discovery.  On success
this is the `isInitialized && printerAdapter` fast path; on failure it is the
`initializationPromise` path — the settled rejected promise overwrote the
`finally` clause's clearing. -/
theorem initPrinter_after_body
    (cfg : PrinterConfig) (fp fp2 : Option (List Nat)) :
    initPrinter cfg fp2 (initPrinterBody cfg fp).state =
      { result := (initPrinterBody cfg fp).result,
        state := (initPrinterBody cfg fp).state, discoveries := 0 } := by
  by_cases h1 : cfg.type = "usb"
  · cases fp with
    | none => simp [initPrinterBody, initPrinter, initFailState, h1]
    | some l =>
      cases l with
      | nil => simp [initPrinterBody, initPrinter, initFailState, h1]
      | cons d ds => simp [initPrinterBody, initPrinter, h1]
  · by_cases h2 : cfg.type = "network" <;>
      simp [initPrinterBody, initPrinter, initFailState, h1, h2]

/-- Repeated `initPrinter` calls against a state the single call leaves
unchanged keep returning the same result with no further discovery. -/
theorem initCalls_stable
    (cfg : PrinterConfig) (fp : Option (List Nat)) (r : Except String USBAdapter)
    (s : PrinterState)
    (h : initPrinter cfg fp s = { result := r, state := s, discoveries := 0 }) :
    ∀ n, initCalls cfg fp n s = (List.replicate n r, s, 0) := by
  intro n
  induction n with
  | zero => rfl
  | succ m ih => simp [initCalls, h, ih, List.replicate_succ]

/-- From the module-load state, `initPrinter` runs the initialization body. -/
theorem initPrinter_clean (cfg : PrinterConfig) (fp : Option (List Nat)) :
    initPrinter cfg fp cleanState = initPrinterBody cfg fp := rfl

/-- With the USB printer type configured, the initialization body performs
exactly one discovery, whatever discovery returns. -/
theorem initPrinterBody_discoveries
    (cfg : PrinterConfig) (fp : Option (List Nat)) (husb : cfg.type = "usb") :
    (initPrinterBody cfg fp).discoveries = 1 := by
  cases fp with
  | none => simp [initPrinterBody, husb]
  | some l => cases l with
    | nil => simp [initPrinterBody, husb]
    | cons d ds => simp [initPrinterBody, husb]

/-! ## Claims about the connection manager -/

/-- C6: for every `N ≥ 1`, `N` concurrent `initPrinter()` calls (serialized by
the event loop; `initPrinter` never suspends) made while the state is
uninitialized perform exactly one discovery sequence, and all `N` callers
receive the same result — the same `USBAdapter` handle on success or the same
propagated error on failure. -/
theorem single_flight_acquisition
    (cfg : PrinterConfig) (fp : Option (List Nat)) (N : Nat)
    (hN : 1 ≤ N) (husb : cfg.type = "usb") :
    (initCalls cfg fp N cleanState).2.2 = 1 ∧
    ∃ r, (initCalls cfg fp N cleanState).1 = List.replicate N r := by
  cases N with
  | zero => exact absurd hN (by simp)
  | succ m =>
    have hb := initPrinter_after_body cfg fp fp
    have hstable := initCalls_stable cfg fp (initPrinterBody cfg fp).result
      (initPrinterBody cfg fp).state hb m
    refine ⟨?_, (initPrinterBody cfg fp).result, ?_⟩ <;>
      simp [initCalls, initPrinter_clean, hstable,
        initPrinterBody_discoveries cfg fp husb, List.replicate_succ]

/-- C6 witness: three calls against a one-candidate discovery result share a
single discovery and a single handle. -/
theorem single_flight_acquisition_witness :
    (initCalls usbAutoCfg (some [7]) 3 cleanState).2.2 = 1 ∧
    ∃ r, (initCalls usbAutoCfg (some [7]) 3 cleanState).1 = List.replicate 3 r :=
  single_flight_acquisition usbAutoCfg (some [7]) 3 (by decide) rfl

/-- C7: `resetPrinter()` is idempotent and unconditional: from every starting
state and whatever the discarded handle's `close` call does, the resulting
state is the module-load state — `InitializationState` is `uninitialized`,
`getPrinter()` is `null`, the in-flight initialization bookkeeping
(`initializationPromise`) is cleared — and any number of further consecutive
calls leave it there.  The close error is swallowed: `resetPrinter` returns
normally in every case. -/
theorem reset_idempotent (ce ce2 : Option String) (s : PrinterState) (n : Nat) :
    (resetPrinter ce s).state = cleanState ∧
    stateOf (resetPrinter ce s).state = .uninitialized ∧
    getPrinter (resetPrinter ce s).state = none ∧
    (resetPrinter ce s).state.initializationPromise = none ∧
    (fun t => (resetPrinter ce2 t).state)^[n] (resetPrinter ce s).state = cleanState := by
  have h := resetPrinter_state ce s
  refine ⟨h, by rw [h]; rfl, by rw [h]; rfl, by rw [h]; rfl, ?_⟩
  rw [h]
  exact Function.iterate_fixed (resetPrinter_state ce2 cleanState) n

/-- C8: evaluation of the code at the failing input of Scenario A.  With the
USB type configured and discovery returning zero candidates, the first
`initPrinter()` call rejects with `NoDeviceFound` after one discovery, and the
`catch` clause does null the handle and clear `isInitialized`; but the settled
rejected promise overwrites the `finally` clause's
`initializationPromise = null` (the assignment to `initializationPromise`
happens after the synchronous IIFE body, `finally` included, has run), so the
state reads as `initializing`, and a subsequent `initPrinter()` call returns
the cached rejection with ZERO further discoveries instead of re-attempting
discovery from scratch — contradicting the claim and the code's own `finally`
clause. -/
theorem stale_promise_after_failed_init :
    (initPrinter usbAutoCfg (some []) cleanState).result = .error noDeviceMsg ∧
    (initPrinter usbAutoCfg (some []) cleanState).discoveries = 1 ∧
    getPrinter (initPrinter usbAutoCfg (some []) cleanState).state = none ∧
    (initPrinter usbAutoCfg (some []) cleanState).state.isInitialized = false ∧
    stateOf (initPrinter usbAutoCfg (some []) cleanState).state = .initializing ∧
    (initPrinter usbAutoCfg (some [])
        (initPrinter usbAutoCfg (some []) cleanState).state).discoveries = 0 ∧
    (initPrinter usbAutoCfg (some [])
        (initPrinter usbAutoCfg (some []) cleanState).state).result =
      .error noDeviceMsg := by
  decide

/-! ## Claims about the print executor -/

/-- C9: after every completion of a single `printReceiptCore` attempt —
success, step failure, or deadline expiry, under any initialization outcome,
any `openAdapter` binding, any emission outcome and any close behavior — the
connection manager has been reset: `getPrinter()` is `null` and the state is
`uninitialized`.  In the deadline-expiry case (timer fires after a successful
initialization) the caller observes the `'Print operation timeout'` error. -/
theorem reset_after_execute
    (cfg : PrinterConfig) (fp : Option (List Nat))
    (binding : Option (USBAdapter → Except String Unit))
    (emit : Except String Unit) (tf : Bool) (ce : Option String)
    (s : PrinterState) (a : USBAdapter) :
    (getPrinter (printReceiptCore cfg fp binding emit tf ce s).state = none ∧
     stateOf (printReceiptCore cfg fp binding emit tf ce s).state = .uninitialized) ∧
    ((initPrinter cfg fp s).result = .ok a → tf = true →
      (printReceiptCore cfg fp binding emit tf ce s).result =
        .error "Print operation timeout") := by
  have hclean : (printReceiptCore cfg fp binding emit tf ce s).state = cleanState := by
    simp only [printReceiptCore]
    cases h : (initPrinter cfg fp s).result with
    | error e => simp [resetPrinter_state]
    | ok adp =>
      cases tf with
      | true => simp [resetPrinter_state]
      | false =>
        cases binding with
        | none => simp [resetPrinter_state]
        | some f =>
          cases hf : f adp with
          | error e2 => simp [hf, resetPrinter_state]
          | ok u => cases emit <;> simp [hf, resetPrinter_state]
  refine ⟨⟨by rw [hclean]; rfl, by rw [hclean]; rfl⟩, ?_⟩
  intro hinit htf
  simp [printReceiptCore, hinit, htf]

/-- C9 witness: Scenario B at concrete inputs — initialization succeeds, the
deadline fires, the caller sees the timeout error, and the handle is null
afterwards. -/
theorem reset_after_execute_witness :
    (initPrinter usbAutoCfg (some [7]) cleanState).result = .ok .auto ∧
    (printReceiptCore usbAutoCfg (some [7]) none (.ok ()) true none cleanState).result =
      .error "Print operation timeout" ∧
    getPrinter (printReceiptCore usbAutoCfg (some [7]) none (.ok ()) true none
      cleanState).state = none :=
  ⟨by decide,
   (reset_after_execute usbAutoCfg (some [7]) none (.ok ()) true none cleanState
      .auto).2 (by decide) rfl,
   (reset_after_execute usbAutoCfg (some [7]) none (.ok ()) true none cleanState
      .auto).1.1⟩

/-- With the repository's actual (missing) `openAdapter` binding, a single
`printReceiptCore` attempt never succeeds, whatever the environment. -/
theorem printReceiptCore_linked_no_success
    (cfg : PrinterConfig) (fp : Option (List Nat)) (emit : Except String Unit)
    (tf : Bool) (ce : Option String) (s : PrinterState) :
    ((printReceiptCore cfg fp openAdapterLinked emit tf ce s).result).isOk = false := by
  simp only [printReceiptCore, openAdapterLinked]
  cases h : (initPrinter cfg fp s).result with
  | error e => simp [Except.isOk, Except.toBool]
  | ok adp => cases tf <;> simp [Except.isOk, Except.toBool]

/-- C1: `printReceipt` rejects and never returns success, for every
configuration, environment and starting state: `openAdapter` is imported from
`printer.js` but not defined or exported by it, so when the first attempt
reaches the open step (initialization succeeded and the deadline has not
fired) it throws `TypeError: openAdapter is not a function`, whose message
matches none of the transient patterns; the operation is invoked exactly once
and the error propagates as permanent, unchanged. -/
theorem openAdapter_missing_rejects
    (cfg cfg2 : PrinterConfig) (env env2 : Nat → AttemptEnv)
    (s0 s2 : PrinterState) (a : USBAdapter)
    (hinit : (initPrinter cfg (env 0).findPrinter s0).result = .ok a)
    (htime : (env 0).timeoutFires = false) :
    (((printReceipt cfg2 env2 s2).1).result).isOk = false ∧
    isTransientError "openAdapter is not a function" = false ∧
    (printReceipt cfg env s0).1.result = .error "openAdapter is not a function" ∧
    (printReceipt cfg env s0).1.trace = [.invoke 0] := by
  have hcore : printReceiptCore cfg (env 0).findPrinter openAdapterLinked
      (env 0).emit (env 0).timeoutFires (env 0).closeErr s0 =
      { result := .error "openAdapter is not a function", state := cleanState } := by
    simp [printReceiptCore, openAdapterLinked, hinit, htime, resetPrinter_state]
  have h1 := retry_permanent_once
    (fun n t => ((printReceiptCore cfg (env n).findPrinter openAdapterLinked
        (env n).emit (env n).timeoutFires (env n).closeErr t).result,
      (printReceiptCore cfg (env n).findPrinter openAdapterLinked
        (env n).emit (env n).timeoutFires (env n).closeErr t).state))
    (fun n => (env n).closeErr) MAX_RETRY_ATTEMPTS s0 cleanState
    "openAdapter is not a function" (by simp [hcore]) (by decide)
  have h2 : printReceipt cfg env s0 =
      ({ result := .error "openAdapter is not a function", trace := [.invoke 0] },
       cleanState) := h1
  refine ⟨?_, by decide, by rw [h2], by rw [h2]⟩
  exact retryLoop_all_error _ (fun n => (env2 n).closeErr) MAX_RETRY_ATTEMPTS
    (fun n t => printReceiptCore_linked_no_success cfg2 (env2 n).findPrinter
      (env2 n).emit (env2 n).timeoutFires (env2 n).closeErr t)
    (MAX_RETRY_ATTEMPTS + 1) 0 s2

/-- C1 witness: concrete successful initialization environment; the single
attempt still rejects with the `TypeError` and is not retried. -/
theorem openAdapter_missing_rejects_witness :
    (((printReceipt usbAutoCfg
        (fun _ => { findPrinter := some [7], emit := .ok (),
                    timeoutFires := false, closeErr := none })
        cleanState).1).result).isOk = false ∧
    isTransientError "openAdapter is not a function" = false ∧
    (printReceipt usbAutoCfg
        (fun _ => { findPrinter := some [7], emit := .ok (),
                    timeoutFires := false, closeErr := none })
        cleanState).1.result = .error "openAdapter is not a function" ∧
    (printReceipt usbAutoCfg
        (fun _ => { findPrinter := some [7], emit := .ok (),
                    timeoutFires := false, closeErr := none })
        cleanState).1.trace = [.invoke 0] :=
  openAdapter_missing_rejects usbAutoCfg usbAutoCfg
    (fun _ => { findPrinter := some [7], emit := .ok (),
                timeoutFires := false, closeErr := none })
    (fun _ => { findPrinter := some [7], emit := .ok (),
                timeoutFires := false, closeErr := none })
    cleanState cleanState .auto (by decide) rfl

/-! ## Emission policy (src/print-handler.js, `printOperation`, lines 127–146)

The per-line dispatch of `receiptLines.forEach(...)` followed by
`printer.feed(2).cut().close()`, as the command sequence sent to the device. -/

/-- Structured commands sent to the `Printer` object. -/
inductive PrinterCmd where
  | alignCt
  | alignLt
  | styleB
  | styleNormal
  | text (s : String)
  | feed (n : Nat)
  | cut
  | close
deriving DecidableEq, Repr

/-- `'='.repeat(10)` (line 129). -/
def sepRun : String := "=========="

/-- JavaScript `s.startsWith(p)`. -/
def jsStartsWith (s p : String) : Bool :=
  startsWithL s.data p.data

/-- The centering condition (lines 129–132): `line.includes('='.repeat(10)) ||
line.includes('Thank you') || line.includes('Please come') ||
(config.receipt.storeName && line.includes(config.receipt.storeName))`. -/
def isCenteredLine (storeName : Option String) (line : String) : Bool :=
  jsIncludes line sepRun || jsIncludes line "Thank you" ||
    jsIncludes line "Please come" ||
    (jsTruthyStr storeName && jsIncludes line (storeName.getD ""))

/-- The totals condition (line 134): `line.startsWith('TOTAL:') ||
line.startsWith('Subtotal:')`. -/
def isTotalsLine (line : String) : Bool :=
  jsStartsWith line "TOTAL:" || jsStartsWith line "Subtotal:"

/-- Commands emitted for one receipt line (the `forEach` body). -/
def emitLine (storeName : Option String) (line : String) : List PrinterCmd :=
  if isCenteredLine storeName line then [.alignCt, .text line]
  else if isTotalsLine line then [.alignLt, .styleB, .text line, .styleNormal]
  else [.alignLt, .text line]

/-- The full command sequence of `printOperation`'s emission block: the
per-line commands in order, then `feed(2)`, `cut()`, `close()`. -/
def printOperationCmds (storeName : Option String) (lines : List String) :
    List PrinterCmd :=
  (lines.map (emitLine storeName)).flatten ++ [.feed 2, .cut, .close]

/-! Specification-level (propositional) forms of the two line conditions. -/

/-- The claim's centering condition: the line contains a run of 10 or more
`'='` characters (equivalently, ten consecutive `'='` as a substring), a
thank-you/footer marker, or the configured (truthy) store name. -/
def CenteredSpec (storeName : Option String) (line : String) : Prop :=
  List.replicate 10 '=' <:+: line.data ∨
  ("Thank you" : String).data <:+: line.data ∨
  ("Please come" : String).data <:+: line.data ∨
  (jsTruthyStr storeName = true ∧ (storeName.getD "").data <:+: line.data)

/-- The claim's totals condition: the line begins with `TOTAL:` or
`Subtotal:`. -/
def TotalsSpec (line : String) : Prop :=
  ("TOTAL:" : String).data <+: line.data ∨ ("Subtotal:" : String).data <+: line.data

/-- `startsWithL` decides the prefix relation. -/
theorem startsWithL_iff (l p : List Char) : startsWithL l p = true ↔ p <+: l := by
  induction l generalizing p with
  | nil =>
    cases p with
    | nil => simp [startsWithL]
    | cons d ds => simp [startsWithL]
  | cons c cs ih =>
    cases p with
    | nil => simp [startsWithL]
    | cons d ds =>
      simp only [startsWithL, Bool.and_eq_true, beq_iff_eq, List.cons_prefix_cons, ih]
      exact and_congr_left' eq_comm

/-- `includesL` decides the infix (contiguous substring) relation. -/
theorem includesL_iff (l p : List Char) : includesL l p = true ↔ p <:+: l := by
  induction l with
  | nil => cases p <;> simp [includesL]
  | cons c cs ih =>
    simp [includesL, List.infix_cons_iff, startsWithL_iff, ih, Bool.or_eq_true]

/-- JavaScript `includes` decides the substring relation on the underlying
character lists. -/
theorem jsIncludes_iff (hay needle : String) :
    jsIncludes hay needle = true ↔ needle.data <:+: hay.data :=
  includesL_iff hay.data needle.data

/-- JavaScript `startsWith` decides the prefix relation. -/
theorem jsStartsWith_iff (s p : String) :
    jsStartsWith s p = true ↔ p.data <+: s.data :=
  startsWithL_iff s.data p.data

/-- The code's Boolean centering condition coincides with the claim's
propositional one. -/
theorem isCenteredLine_iff (storeName : Option String) (line : String) :
    isCenteredLine storeName line = true ↔ CenteredSpec storeName line := by
  have hsep : sepRun.data = List.replicate 10 '=' := by decide
  simp [isCenteredLine, CenteredSpec, jsIncludes_iff, hsep, Bool.or_eq_true,
    Bool.and_eq_true, or_assoc]

/-- The code's Boolean totals condition coincides with the claim's
propositional one. -/
theorem isTotalsLine_iff (line : String) :
    isTotalsLine line = true ↔ TotalsSpec line := by
  simp [isTotalsLine, TotalsSpec, jsStartsWith_iff, Bool.or_eq_true]

/-- C10: the executor's emission policy.  A line containing a run of ten or
more `'='`, a thank-you/footer marker, or the configured store name is sent
centered; otherwise a line beginning with `TOTAL:` or `Subtotal:` is sent
left-aligned in bold and the style is then reset to normal; every other line
is sent left-aligned; and after all lines a feed and a cut (and close) are
emitted. -/
theorem emission_policy (storeName : Option String) (lines : List String)
    (line : String) :
    printOperationCmds storeName lines =
      (lines.map (emitLine storeName)).flatten ++ [.feed 2, .cut, .close] ∧
    (CenteredSpec storeName line →
      emitLine storeName line = [.alignCt, .text line]) ∧
    (¬ CenteredSpec storeName line → TotalsSpec line →
      emitLine storeName line = [.alignLt, .styleB, .text line, .styleNormal]) ∧
    (¬ CenteredSpec storeName line → ¬ TotalsSpec line →
      emitLine storeName line = [.alignLt, .text line]) := by
  refine ⟨rfl, ?_, ?_, ?_⟩
  · intro hc
    simp [emitLine, (isCenteredLine_iff storeName line).2 hc]
  · intro hc ht
    cases hb : isCenteredLine storeName line with
    | true => exact absurd ((isCenteredLine_iff _ _).1 hb) hc
    | false => simp [emitLine, hb, (isTotalsLine_iff line).2 ht]
  · intro hc ht
    cases hb : isCenteredLine storeName line with
    | true => exact absurd ((isCenteredLine_iff _ _).1 hb) hc
    | false =>
      cases hbt : isTotalsLine line with
      | true => exact absurd ((isTotalsLine_iff _).1 hbt) ht
      | false => simp [emitLine, hb, hbt]

/-- C10 witness: a totals line under the default store name is emitted
left-aligned, bold, then reset. -/
theorem emission_policy_witness :
    printOperationCmds (some "XiPOS Store") ["x"] =
      (((["x"] : List String).map (emitLine (some "XiPOS Store"))).flatten) ++
        [.feed 2, .cut, .close] ∧
    emitLine (some "XiPOS Store") "TOTAL: 46.00" =
      [.alignLt, .styleB, .text "TOTAL: 46.00", .styleNormal] :=
  have h := emission_policy (some "XiPOS Store") ["x"] "TOTAL: 46.00"
  ⟨h.1,
   h.2.2.1 (fun hc => absurd ((isCenteredLine_iff _ _).2 hc) (by decide))
     ((isTotalsLine_iff _).1 (by decide))⟩
